import Mathlib

/-!
Shallow embedding of the tds-deployment service (FastAPI app that generates a
single-file HTML app, publishes it to a GitHub repository and notifies an
evaluation webhook), together with proofs about the embedded operations.

External collaborators (the Gemini generation endpoint, the GitHub API, the
webhook, the wall clock and the task-store file) are modelled as explicit
parameters: an `Option String` for the generation call result, oracle
functions and string/nat parameters for clock readings and API results, and
an effect trace for the orchestrator.
-/

namespace TdsDeploy

set_option maxRecDepth 100000
set_option maxHeartbeats 1000000

/-! ## Python string helpers -/

/-- Substring containment on character lists: `infixOf pat l` is true when
`pat` occurs contiguously inside `l`.  Embeds the Python `pat in l` test. -/
def infixOf (pat : List Char) : List Char → Bool
  | [] => decide (pat = [])
  | c :: rest => pat.isPrefixOf (c :: rest) || infixOf pat rest

/-- Python `needle in haystack` for strings. -/
def pyIn (needle haystack : String) : Bool :=
  infixOf needle.toList haystack.toList

/-- Python `str.lower()` (ASCII case mapping, which covers every keyword
and marker the code compares against). -/
def pyLower (s : String) : String := String.mk (s.toList.map Char.toLower)

/-- Python `str.upper()` (ASCII case mapping). -/
def pyUpper (s : String) : String := String.mk (s.toList.map Char.toUpper)

/-- Characters matched by the regex class `\s` (ASCII range), also the set
stripped by `str.strip()` on the ASCII texts handled here. -/
def isRegexSpace (c : Char) : Bool :=
  c = ' ' || c = '\t' || c = '\n' || c = '\r' || c = '\x0b' || c = '\x0c'

/-- Python `str.strip()`: drop leading and trailing whitespace. -/
def pyStrip (s : String) : String :=
  String.mk (((s.toList.dropWhile isRegexSpace).reverse.dropWhile isRegexSpace).reverse)

/-! ## textwrap.dedent -/

/-- Characters counted as indentation by textwrap.dedent (its regexes use
the class `[ \t]`). -/
def isIndentChar (c : Char) : Bool := c = ' ' || c = '\t'

/-- Split a character list into lines at newline characters, mirroring
Python `text.split(chr(10))`: n newlines give n+1 lines. -/
def splitLines : List Char → List (List Char)
  | [] => [[]]
  | c :: rest =>
    if c = '\n' then [] :: splitLines rest
    else
      match splitLines rest with
      | l :: ls => (c :: l) :: ls
      | [] => [[c]]

/-- Longest common prefix of two character lists (the margin-merging step of
textwrap.dedent). -/
def lcp : List Char → List Char → List Char
  | x :: xs, y :: ys => if x = y then x :: lcp xs ys else []
  | _, _ => []

/-- Leading indentation of a line. -/
def leadingWS (l : List Char) : List Char := l.takeWhile isIndentChar

/-- Blank-line normalization of textwrap.dedent: a nonempty line made only
of indentation characters becomes empty. -/
def normLine (l : List Char) : List Char :=
  if !l.isEmpty && l.all isIndentChar then [] else l

/-- Does the line carry content (is it non-empty after normalization)? -/
def isContentLine (l : List Char) : Bool := !l.isEmpty

/-- The dedent margin: the longest common leading indentation of the
content lines. -/
def marginOf : List (List Char) → List Char
  | [] => []
  | l :: ls => ls.foldl (fun m l2 => lcp m (leadingWS l2)) (leadingWS l)

/-- Strip the margin from a line that carries it. -/
def stripLine (margin l : List Char) : List Char :=
  if margin.isPrefixOf l then l.drop margin.length else l

/-- Line-level core of textwrap.dedent: whitespace-only lines are blanked,
the margin is the longest common leading indentation of the remaining
non-empty lines, and that margin is stripped from every line carrying it. -/
def dedentLines (lines : List (List Char)) : List (List Char) :=
  let normed := lines.map normLine
  normed.map (stripLine (marginOf (normed.filter isContentLine)))

/-- Continuation of `joinLines`: each further line is preceded by a
newline. -/
def joinLinesAux : List (List Char) → List Char
  | [] => []
  | l :: ls => '\n' :: (l ++ joinLinesAux ls)

/-- Python `chr(10).join(lines)` on character lists. -/
def joinLines : List (List Char) → List Char
  | [] => []
  | l :: ls => l ++ joinLinesAux ls

/-- textwrap.dedent, as used by `_readme` and `_license_mit`. -/
def dedent (text : String) : String :=
  String.mk (joinLines (dedentLines (splitLines text.toList)))

/-! ## src/app/ai.py — template literals

The following string constants are verbatim transcriptions of the string
literals of `_smart_template`, `_readme` and `_license_mit` in
src/app/ai.py, with Python f-string escapes already applied and the
interpolation holes split out. -/

/-- Literal template piece transcribed from src/app/ai.py (head of the
generated document, up to the title). -/
def headLit1 : String :=
  "<!DOCTYPE html>\n<html lang=\"en\">\n<head>\n  <meta charset=\"UTF-8\">\n  <meta name=\"viewport\" content=\"width=device-width, initial-scale=1.0\">\n  <title>"

/-- Literal template piece transcribed from src/app/ai.py (styles, between
the two title splices). -/
def headLit2 : String :=
  "</title>\n  <link href=\"https://cdn.jsdelivr.net/npm/bootstrap@5.3.0/dist/css/bootstrap.min.css\" rel=\"stylesheet\">\n  <style>\n    body \x7b\n      padding: 2rem;\n      background: linear-gradient(135deg, #667eea 0%, #764ba2 100%);\n      min-height: 100vh;\n    \x7d\n    .container \x7b\n      background: white;\n      border-radius: 15px;\n      padding: 3rem;\n      box-shadow: 0 10px 40px rgba(0,0,0,0.2);\n      max-width: 900px;\n    \x7d\n    h1 \x7b color: #667eea; font-weight: bold; \x7d\n    .result-box \x7b\n      background: #f8f9fa;\n      border-radius: 10px;\n      padding: 2rem;\n      margin: 2rem 0;\n      min-height: 100px;\n    \x7d\n    img \x7b max-width: 100%; height: auto; \x7d\n  </style>\n</head>\n<body>\n  <div class=\"container\">\n    <h1>"

/-- Literal template piece transcribed from src/app/ai.py (between the h1
title and the brief). -/
def headLit3 : String :=
  "</h1>\n    <p class=\"lead text-muted\">"

/-- Literal template piece transcribed from src/app/ai.py (after the
brief). -/
def headLit4 : String :=
  "</p>\n    <hr>\n"

/-- Literal widget markup for the captcha branch of `_smart_template`. -/
def captchaHtml : String :=
  "\n    <div class=\"mb-4\">\n      <h3>Captcha Image</h3>\n      <div class=\"result-box text-center\">\n        <img id=\"captcha-image\" src=\"\" alt=\"Captcha\" style=\"display:none;\">\n        <p id=\"image-status\" class=\"text-muted\">Loading...</p>\n      </div>\n    </div>\n    \n    <div class=\"mb-4\">\n      <h3>Solved Text</h3>\n      <div id=\"solved-text\" class=\"result-box\">\n        <p class=\"text-muted\">Processing captcha...</p>\n      </div>\n    </div>\n"

/-- Literal widget markup for the csv/sales branch of `_smart_template`
(the totals table). -/
def csvHtml : String :=
  "\n    <div class=\"mb-4\">\n      <div id=\"total-sales\" class=\"result-box text-center\">\n        <h2>Total Sales: $<span id=\"sales-amount\">0.00</span></h2>\n      </div>\n    </div>\n    \n    <table id=\"product-sales\" class=\"table table-striped\">\n      <thead class=\"table-dark\">\n        <tr>\n          <th>Product</th>\n          <th>Sales</th>\n        </tr>\n      </thead>\n      <tbody id=\"product-tbody\">\n        <tr><td colspan=\"2\" class=\"text-center\">Loading data...</td></tr>\n      </tbody>\n    </table>\n"

/-- Literal widget markup for the markdown branch of `_smart_template`
(the tabbed preview/source view). -/
def markdownHtml : String :=
  "\n    <ul id=\"markdown-tabs\" class=\"nav nav-tabs mb-3\">\n      <li class=\"nav-item\">\n        <a class=\"nav-link active\" href=\"#\" data-tab=\"output\">Rendered</a>\n      </li>\n      <li class=\"nav-item\">\n        <a class=\"nav-link\" href=\"#\" data-tab=\"source\">Source</a>\n      </li>\n    </ul>\n    <div id=\"markdown-output\" class=\"result-box\"></div>\n    <pre id=\"markdown-source\" class=\"result-box\" style=\"display:none;\"></pre>\n    <div id=\"markdown-word-count\" class=\"mt-2\">Words: <strong>0</strong></div>\n"

/-- Literal widget markup for the github+user branch of `_smart_template`
(the username-lookup form). -/
def githubHtml : String :=
  "\n    <form id=\"github-user-form\" class=\"mb-4\">\n      <div class=\"mb-3\">\n        <label class=\"form-label\">GitHub Username</label>\n        <input type=\"text\" class=\"form-control\" id=\"github-username\" placeholder=\"Enter username\" required>\n      </div>\n      <button type=\"submit\" class=\"btn btn-primary\">Lookup User</button>\n    </form>\n    \n    <div id=\"github-status\" aria-live=\"polite\" class=\"alert\" style=\"display:none;\"></div>\n    \n    <div id=\"github-result\" class=\"result-box\" style=\"display:none;\">\n      <p><strong>Created:</strong> <span id=\"github-created-at\"></span></p>\n      <p><strong>Account Age:</strong> <span id=\"github-account-age\"></span> years</p>\n    </div>\n"

/-- Literal widget markup for the default branch of `_smart_template`
(the hello-world clock with ids hello and date). -/
def clockHtml : String :=
  "\n    <div class=\"result-box text-center\">\n      <h2 id=\"hello\">Hello World! 👋</h2>\n      <p id=\"date\" class=\"fs-4\"></p>\n    </div>\n"

/-- Literal footer piece before the generation-timestamp splice. -/
def footerA : String :=
  "\n    <hr class=\"mt-4\">\n    <small class=\"text-muted\">Generated "

/-- Literal footer piece after the generation-timestamp splice. -/
def footerB : String :=
  "Z</small>\n  </div>\n  \n  <script src=\"https://cdn.jsdelivr.net/npm/bootstrap@5.3.0/dist/js/bootstrap.bundle.min.js\"></script>\n  <script>\n"

/-- Literal widget script for the captcha branch. -/
def captchaJs : String :=
  "\n    // Captcha solver\n    const params = new URLSearchParams(window.location.search);\n    const captchaUrl = params.get('url');\n    const img = document.getElementById('captcha-image');\n    const status = document.getElementById('image-status');\n    const solved = document.getElementById('solved-text');\n    \n    if (captchaUrl) \x7b\n      img.src = captchaUrl;\n      img.style.display = 'block';\n      status.style.display = 'none';\n      \n      // Mock solving (2 seconds)\n      setTimeout(() => \x7b\n        solved.innerHTML = '<h3 class=\"text-success\">ABC123</h3><p class=\"text-muted\">Solved in 2 seconds</p>';\n      \x7d, 2000);\n    \x7d else \x7b\n      status.textContent = 'Add ?url=IMAGE_URL to load a captcha';\n    \x7d\n"

/-- Literal widget script for the csv/sales branch. -/
def csvJs : String :=
  "\n    // CSV data processor (mock)\n    const data = [\n      \x7b product: 'Widget A', sales: 1250.50 \x7d,\n      \x7b product: 'Widget B', sales: 2340.75 \x7d,\n      \x7b product: 'Widget C', sales: 890.25 \x7d\n    ];\n    \n    const total = data.reduce((sum, item) => sum + item.sales, 0);\n    document.getElementById('sales-amount').textContent = total.toFixed(2);\n    \n    const tbody = document.getElementById('product-tbody');\n    tbody.innerHTML = data.map(item => \n      `<tr><td>$\x7bitem.product\x7d</td><td>$$\x7bitem.sales.toFixed(2)\x7d</td></tr>`\n    ).join('');\n"

/-- Literal widget script for the markdown branch. -/
def markdownJs : String :=
  "\n    // Markdown converter (mock)\n    const mdSource = '# Sample\\n\\nThis is **markdown**.';\n    const output = document.getElementById('markdown-output');\n    const source = document.getElementById('markdown-source');\n    \n    output.innerHTML = '<h1>Sample</h1><p>This is <strong>markdown</strong>.</p>';\n    source.textContent = mdSource;\n    document.getElementById('markdown-word-count').innerHTML = 'Words: <strong>3</strong>';\n    \n    document.querySelectorAll('[data-tab]').forEach(btn => \x7b\n      btn.addEventListener('click', (e) => \x7b\n        e.preventDefault();\n        const tab = e.target.dataset.tab;\n        document.querySelectorAll('.nav-link').forEach(l => l.classList.remove('active'));\n        e.target.classList.add('active');\n        output.style.display = tab === 'output' ? 'block' : 'none';\n        source.style.display = tab === 'source' ? 'block' : 'none';\n      \x7d);\n    \x7d);\n"

/-- Literal widget script for the github+user branch. -/
def githubJs : String :=
  "\n    // GitHub user lookup\n    document.getElementById('github-user-form').addEventListener('submit', async (e) => \x7b\n      e.preventDefault();\n      const username = document.getElementById('github-username').value;\n      const status = document.getElementById('github-status');\n      const result = document.getElementById('github-result');\n      \n      status.style.display = 'block';\n      status.className = 'alert alert-info';\n      status.textContent = 'Looking up user...';\n      \n      try \x7b\n        const res = await fetch(`https://api.github.com/users/$\x7busername\x7d`);\n        if (!res.ok) throw new Error('User not found');\n        \n        const data = await res.json();\n        const created = new Date(data.created_at);\n        const age = new Date().getFullYear() - created.getFullYear();\n        \n        document.getElementById('github-created-at').textContent = created.toDateString();\n        document.getElementById('github-account-age').textContent = age;\n        \n        result.style.display = 'block';\n        status.className = 'alert alert-success';\n        status.textContent = 'User found!';\n      \x7d catch (err) \x7b\n        status.className = 'alert alert-danger';\n        status.textContent = 'Error: ' + err.message;\n        result.style.display = 'none';\n      \x7d\n    \x7d);\n"

/-- Literal widget script for the default clock branch. -/
def clockJs : String :=
  "\n    // Display date\n    const now = new Date();\n    document.getElementById('date').textContent = now.toLocaleDateString('en-US', \x7b\n      year: 'numeric', month: 'long', day: 'numeric'\n    \x7d);\n"

/-- Literal closing piece of the template. -/
def closingPiece : String :=
  "\n  </script>\n</body>\n</html>\n"

/-- Raw README template before the brief splice (pre-dedent, as built by the
f-string inside `_readme`). -/
def readmeRaw1 : String :=
  "    # Auto-generated Application\n\n    ## Brief\n    "

/-- Raw README template between the brief and the checks list. -/
def readmeRaw2 : String :=
  "\n\n    ## Checks\n    "

/-- Raw README template after the checks list. -/
def readmeRaw3 : String :=
  "\n\n    ## Usage\n    Open `index.html` or visit the GitHub Pages URL.\n\n    ## Tech Stack\n    - HTML5, CSS3, JavaScript\n    - Bootstrap 5.3\n    - GitHub Pages\n\n    ## License\n    MIT License\n    "

/-- Raw MIT license text before the year splice (pre-dedent). -/
def licenseRaw1 : String :=
  "    MIT License\n\n    Copyright (c) "

/-- Raw MIT license text after the year splice (pre-dedent). -/
def licenseRaw2 : String :=
  "\n\n    Permission is hereby granted, free of charge, to any person obtaining a copy\n    of this software and associated documentation files (the \"Software\"), to deal\n    in the Software without restriction, including without limitation the rights\n    to use, copy, modify, merge, publish, distribute, sublicense, and/or sell\n    copies of the Software, and to permit persons to do so, subject to the\n    following conditions:\n\n    The above copyright notice and this permission notice shall be included in all\n    copies or substantial portions of the Software.\n\n    THE SOFTWARE IS PROVIDED \"AS IS\", WITHOUT WARRANTY OF ANY KIND, EXPRESS OR\n    IMPLIED, INCLUDING BUT NOT LIMITED TO THE WARRANTIES OF MERCHANTABILITY,\n    FITNESS FOR A PARTICULAR PURPOSE AND NONINFRINGEMENT. IN NO EVENT SHALL THE\n    AUTHORS OR COPYRIGHT HOLDERS BE LIABLE FOR ANY CLAIM, DAMAGES OR OTHER\n    LIABILITY, WHETHER IN AN ACTION OF CONTRACT, TORT OR OTHERWISE, ARISING FROM,\n    OUT OF OR IN CONNECTION WITH THE SOFTWARE OR THE USE OR OTHER DEALINGS IN THE\n    SOFTWARE.\n    "

/-! ## src/app/ai.py — functions -/

/-- An attachment record (`\x7bname, url\x7d` dict); fields are optional since the
source reads them with `.get`. -/
structure Attachment where
  name : Option String
  url : Option String

/-- Keyword flag `is_captcha` (line 69): the lowered brief mentions
"captcha". -/
def is_captcha (brief_lower : String) : Bool := pyIn "captcha" brief_lower

/-- Keyword flag `is_csv` (line 70): the lowered brief mentions "csv" or
"sales". -/
def is_csv (brief_lower : String) : Bool :=
  pyIn "csv" brief_lower || pyIn "sales" brief_lower

/-- Keyword flag `is_markdown` (line 71). -/
def is_markdown (brief_lower : String) : Bool := pyIn "markdown" brief_lower

/-- Keyword flag `is_github` (line 72): mentions both "github" and "user". -/
def is_github (brief_lower : String) : Bool :=
  pyIn "github" brief_lower && pyIn "user" brief_lower

/-- Python `str.split()` with no separator: maximal runs of non-whitespace
characters (leading, trailing and repeated whitespace dropped). -/
def pyWords : List Char → List Char → List (List Char)
  | [], acc => if acc.isEmpty then [] else [acc.reverse]
  | c :: rest, acc =>
    if c.isWhitespace then
      if acc.isEmpty then pyWords rest [] else acc.reverse :: pyWords rest []
    else pyWords rest (c :: acc)

/-- Title computation of `_smart_template`:
`" ".join(brief.split()[:8]) or "Generated Application"`. -/
def titleOf (brief : String) : String :=
  let words := (pyWords brief.toList []).map String.mk
  let t := String.intercalate " " (words.take 8)
  if t = "" then "Generated Application" else t

/-- Head of the template document (the first f-string of `_smart_template`,
which splices the title twice and the brief once). -/
def smartHead (title brief : String) : String :=
  headLit1 ++ title ++ headLit2 ++ title ++ headLit3 ++ brief ++ headLit4

/-- The widget markup chosen by the if/elif chain at lines 114-192 of
src/app/ai.py (captcha first, then csv/sales, markdown, github+user,
default clock). -/
def widgetHtml (ca cs md gh : Bool) : String :=
  if ca then captchaHtml
  else if cs then csvHtml
  else if md then markdownHtml
  else if gh then githubHtml
  else clockHtml

/-- The widget script chosen by the matching if/elif chain at lines
205-310. -/
def widgetJs (ca cs md gh : Bool) : String :=
  if ca then captchaJs
  else if cs then csvJs
  else if md then markdownJs
  else if gh then githubJs
  else clockJs

/-- Assembly of the template: `''.join(html)` where the html list holds the
head, one widget markup block, the footer (with the timestamp spliced in),
one widget script block, and the closing piece. -/
def templateWith (brief wHtml wJs now : String) : String :=
  smartHead (titleOf brief) brief ++ wHtml ++ footerA ++ now ++ footerB ++ wJs ++ closingPiece

/-- src/app/ai.py `_smart_template`.  `now` stands for the
`datetime.utcnow().isoformat()` reading taken at line 66.  As in the source,
`checks` and `attachments` are accepted but never used. -/
def _smart_template (brief : String) (checks : List String)
    (attachments : List Attachment) (now : String) : String :=
  let brief_lower := pyLower brief
  templateWith brief
    (widgetHtml (is_captcha brief_lower) (is_csv brief_lower)
      (is_markdown brief_lower) (is_github brief_lower))
    (widgetJs (is_captcha brief_lower) (is_csv brief_lower)
      (is_markdown brief_lower) (is_github brief_lower))
    now

/-- The checks list rendered as markdown bullets:
`chr(10).join("- " + c for c in checks)`. -/
def checksListOf (checks : List String) : String :=
  String.intercalate "\n" (checks.map (fun c => "- " ++ c))

/-- src/app/ai.py `_readme`: the f-string template with brief and checks
spliced in, passed through textwrap.dedent. -/
def _readme (brief : String) (checks : List String) : String :=
  dedent (readmeRaw1 ++ brief ++ readmeRaw2 ++ checksListOf checks ++ readmeRaw3)

/-- src/app/ai.py `_license_mit`: the MIT license f-string with
`datetime.utcnow().year` spliced in, passed through textwrap.dedent. -/
def _license_mit (year : Nat) : String :=
  dedent (licenseRaw1 ++ Nat.repr year ++ licenseRaw2)

/-- Case-insensitive literal-prefix match (a literal regex fragment under
re.I). -/
def ciPrefix (pat s : List Char) : Bool :=
  (pat.map Char.toLower).isPrefixOf (s.map Char.toLower)

/-- Lazy capture of the regex fragment matching everything up to the next
closing fence: shortest run of characters followed by a "three backticks"
fence; none if no fence follows. -/
def captureToFence : List Char → Option (List Char)
  | [] => none
  | c :: rest =>
    if "```".toList.isPrefixOf (c :: rest) then some []
    else (captureToFence rest).map (fun l => c :: l)

/-- re.search for a fenced block: leftmost position where the opening
pattern matches case-insensitively, followed by optional whitespace, a lazy
capture and a closing fence; tries the next position when no closing fence
follows. -/
def searchFence (openPat : List Char) : List Char → Option (List Char)
  | [] => none
  | c :: rest =>
    if ciPrefix openPat (c :: rest) then
      match captureToFence (((c :: rest).drop openPat.length).dropWhile isRegexSpace) with
      | some cap => some cap
      | none => searchFence openPat rest
    else searchFence openPat rest

/-- src/app/ai.py `_extract_html`: when the text holds a fence, prefer an
html-tagged fenced block, else the first fenced block, else the raw text;
the result is stripped. -/
def _extract_html (text : String) : String :=
  if pyIn "```" text then
    match searchFence "```html".toList text.toList with
    | some cap => pyStrip (String.mk cap)
    | none =>
      match searchFence "```".toList text.toList with
      | some cap => pyStrip (String.mk cap)
      | none => pyStrip text
  else pyStrip text

/-- The round-1 acceptance test at src/app/ai.py line 418:
`html and "<!DOCTYPE" in html.upper() and "</html>" in html.lower()`. -/
def acceptsRound1 (html : String) : Bool :=
  !html.isEmpty && pyIn "<!DOCTYPE" (pyUpper html) && pyIn "</html>" (pyLower html)

/-- The round-2 acceptance test at src/app/ai.py line 456:
`html and "<!DOCTYPE" in html.upper()` (no closing-tag test). -/
def acceptsRound2 (html : String) : Bool :=
  !html.isEmpty && pyIn "<!DOCTYPE" (pyUpper html)

/-- A FileSet: the insertion-ordered dict of file name to file content. -/
abbrev FileSet := List (String × String)

/-- Dict lookup on a FileSet. -/
def dictGet (d : FileSet) (k : String) : Option String :=
  (d.find? (fun kv => kv.1 == k)).map (fun kv => kv.2)

/-- src/app/ai.py `generate_code` (round 1).  `gemini` is the result of the
external `_call_gemini` call: none models every unavailability case (missing
key, transport error, timeout, safety block, empty candidates).  `now` and
`year` stand for the utcnow clock readings used by the fallback template and
the license. -/
def generate_code (gemini : Option String) (brief : String) (checks : List String)
    (attachments : List Attachment) (now : String) (year : Nat) : FileSet :=
  let fallback : FileSet :=
    [("index.html", _smart_template brief checks attachments now),
     ("README.md", _readme brief checks),
     ("LICENSE", _license_mit year)]
  match gemini with
  | none => fallback
  | some t =>
    let html := _extract_html t
    if acceptsRound1 html then
      [("index.html", html),
       ("README.md", _readme brief checks),
       ("LICENSE", _license_mit year)]
    else fallback

/-- Round-1 metadata persisted in the task record. -/
structure Round1Info where
  brief : String
  checks : List String
  nonce : String
  timestamp : String
deriving DecidableEq

/-- Round-2 metadata appended to the task record. -/
structure Round2Info where
  brief : String
  checks : List String
  nonce : String
  commitSha : String
  timestamp : String
deriving DecidableEq

/-- The persisted TaskRecord (keyed by task id in the store). -/
structure TaskRecord where
  email : String
  repoName : String
  repoUrl : String
  pagesUrl : String
  commitSha : String
  round1 : Round1Info
  round2 : Option Round2Info
deriving DecidableEq

/-- src/app/ai.py `generate_updates` (round 2).  Reads the round-1 brief and
checks out of the task record, asks the model for an update, and falls back
to the template applied to the concatenated briefs and checks (no LICENSE
entry): the acceptance test here is `acceptsRound2`. -/
def generate_updates (gemini : Option String) (task_info : TaskRecord) (brief : String)
    (checks : List String) (attachments : List Attachment) (now : String) : FileSet :=
  let old_brief := task_info.round1.brief
  let old_checks := task_info.round1.checks
  let combined := old_brief ++ "\n\nUPDATE: " ++ brief
  let all_checks := old_checks ++ checks
  let fallback : FileSet :=
    [("index.html", _smart_template combined all_checks attachments now),
     ("README.md", _readme combined all_checks)]
  match gemini with
  | none => fallback
  | some t =>
    let html := _extract_html t
    if acceptsRound2 html then
      [("index.html", html), ("README.md", _readme combined all_checks)]
    else fallback

/-! ## src/app/validator.py -/

/-- JSON values, the type of fields of the parsed request body.  Numbers are
modelled as integers (the JSON numbers these requests carry). -/
inductive JVal where
  | null
  | bool (b : Bool)
  | num (n : Int)
  | str (s : String)
  | arr (elems : List JVal)
  | obj (fields : List (String × JVal))

/-- Lookup of a key in the parsed JSON body (a Python dict). -/
def jGet (body : List (String × JVal)) (k : String) : Option JVal :=
  (body.find? (fun kv => kv.1 == k)).map (fun kv => kv.2)

/-- Characters excluded by the regex class `[^\s@]` of EMAIL_RE. -/
def emailAtomChar (c : Char) : Bool := !isRegexSpace c && c != '@'

/-- Match of the core of `EMAIL_RE = ^[^\s@]+@[^\s@]+\.[^\s@]+$` against a
whole character list: a nonempty atom, an @, and a remainder of atom
characters containing a dot with nonempty parts on both sides. -/
def emailCore (cs : List Char) : Bool :=
  match cs.splitOn '@' with
  | [a, rest] =>
    !a.isEmpty && a.all emailAtomChar && !rest.isEmpty && rest.all emailAtomChar &&
    infixOf ['.'] (rest.drop 1).dropLast
  | _ => false

/-- `EMAIL_RE.match(email)` viewed as a Bool: the `$` anchor also accepts a
single trailing newline, as in Python. -/
def emailOk (s : String) : Bool :=
  emailCore s.toList ||
    (s.toList.getLast? == some '\n' && emailCore s.toList.dropLast)

/-- Valid scheme characters after the first (RFC 3986 as implemented by
urllib.parse). -/
def isSchemeChar (c : Char) : Bool :=
  c.isAlphanum || c = '+' || c = '-' || c = '.'

/-- Split off `scheme:` as urllib.parse.urlparse does: the text before the
first colon is a scheme when it is nonempty, starts with a letter and
consists of scheme characters. -/
def splitScheme : List Char → Option (List Char × List Char)
  | [] => none
  | c :: rest =>
    if c = ':' then some ([], rest)
    else (splitScheme rest).map (fun p => (c :: p.1, p.2))

/-- Does urlparse assign this url a nonempty scheme and netloc?  The netloc
is the text between `//` and the next `/`, `?` or `#`. -/
def urlHasSchemeNetloc (s : String) : Bool :=
  match splitScheme s.toList with
  | none => false
  | some (sch, rest) =>
    (match sch with
     | [] => false
     | c0 :: _ => c0.isAlpha && sch.all isSchemeChar) &&
    (match rest with
     | '/' :: '/' :: r =>
       match r with
       | [] => false
       | c :: _ => !(c = '/' || c = '?' || c = '#')
     | _ => false)

/-- The `round in (1, 2)` membership test; Python numeric equality makes
`True == 1` so a JSON true also passes. -/
def roundOk : JVal → Bool
  | .num n => n == 1 || n == 2
  | .bool b => b
  | _ => false

/-- The `urlparse` validation step wrapped in try/except: a non-string value
makes urlparse raise, which the except turns into a failure. -/
def urlOk : JVal → Bool
  | .str s => urlHasSchemeNetloc s
  | _ => false

/-- The required request fields, in the order they are checked. -/
def requiredFields : List String :=
  ["email", "secret", "task", "round", "nonce", "brief", "checks", "evaluation_url"]

/-- src/app/validator.py `validate_request`.  `Except Unit` models an
exception escaping the validator (a non-string email makes `re.match` raise
TypeError, which `build` does not catch); `.ok (some msg)` is a validation
failure with its message, `.ok none` is a pass. -/
def validate_request (body : List (String × JVal)) : Except Unit (Option String) :=
  match requiredFields.find? (fun f => (jGet body f).isNone) with
  | some f => .ok (some ("Missing required field: " ++ f))
  | none =>
    match jGet body "email" with
    | some (.str e) =>
      if !emailOk e then .ok (some "Invalid email format")
      else
        match jGet body "checks" with
        | some (.arr _) =>
          match jGet body "round" with
          | some r =>
            if !roundOk r then .ok (some "round must be 1 or 2")
            else
              match jGet body "evaluation_url" with
              | some u =>
                if !urlOk u then .ok (some "Invalid evaluation_url")
                else .ok none
              | none => .error ()
          | none => .error ()
        | some _ => .ok (some "checks must be an array")
        | none => .error ()
    | some _ => .error ()
    | none => .error ()

/-- Python truthiness of an optional string (`bool(expected)`). -/
def truthy : Option String → Bool
  | none => false
  | some s => !s.isEmpty

/-- src/app/validator.py `verify_secret`: `bool(expected) and provided ==
expected`, where `expected = os.getenv("MY_SECRET")` is passed explicitly
(none when the variable is unset). -/
def verify_secret (expected : Option String) (provided : String) : Bool :=
  truthy expected && expected == some provided

/-! ## src/app/main.py — the /api/build endpoint -/

/-- Outcome of the synchronous part of the `build` endpoint. -/
inductive BuildResp where
  /-- HTTPException 400 with its detail message. -/
  | badRequest (msg : String)
  /-- HTTPException 401 "Invalid secret". -/
  | unauthorized
  /-- 200 acknowledgment; background processing is scheduled. -/
  | accepted
  /-- an exception escaped the handler (FastAPI answers 500). -/
  | serverError
deriving DecidableEq

/-- HTTP status code of a `BuildResp`. -/
def statusCode : BuildResp → Nat
  | .badRequest _ => 400
  | .unauthorized => 401
  | .accepted => 200
  | .serverError => 500

/-- Is the request accepted? -/
def acceptedB : BuildResp → Bool
  | .accepted => true
  | _ => false

/-- src/app/main.py `build` (the part up to the acknowledgment): validation
first, then the secret check, then the 200 ack.  A non-string secret value
compares unequal to the configured string and is rejected 401. -/
def build (expected : Option String) (body : List (String × JVal)) : BuildResp :=
  match validate_request body with
  | .error () => .serverError
  | .ok (some msg) => .badRequest msg
  | .ok none =>
    match jGet body "secret" with
    | some (.str s) => if verify_secret expected s then .accepted else .unauthorized
    | some _ => .unauthorized
    | none => .serverError

/-! ## src/app/main.py — notify_eval -/

/-- The retry delays of `notify_eval`. -/
def delays : List Nat := [1, 2, 4, 8, 16]

/-- Observable trace of one `notify_eval` call: how many POST attempts were
made, which sleeps were performed between them, and whether a 200 was
seen. -/
structure NotifyTrace where
  attempts : Nat
  sleeps : List Nat
  success : Bool
deriving DecidableEq

/-- The retry loop of `notify_eval`: `respond i` is the result of the i-th
POST (none models a transport error / raised exception, `some code` an HTTP
response).  The loop returns at the first 200 and sleeps the scheduled delay
after each failed attempt except the last (`i < len(delays)`). -/
def notify_go (respond : Nat → Option Nat) : Nat → List Nat → NotifyTrace
  | _, [] => ⟨0, [], false⟩
  | i, d :: rest =>
    if respond i = some 200 then ⟨1, [], true⟩
    else
      let t := notify_go respond (i + 1) rest
      ⟨t.attempts + 1, (if i < delays.length then [d] else []) ++ t.sleeps, t.success⟩

/-- src/app/main.py `notify_eval`, as the trace it produces.  It is a total
function of the per-attempt outcomes: every exception is caught, so it never
raises to its caller. -/
def notify_eval (respond : Nat → Option Nat) : NotifyTrace :=
  notify_go respond 1 delays

/-! ## src/app/storage.py -/

/-- The persisted task store: a JSON object keyed by task id. -/
abbrev TaskStore := List (String × TaskRecord)

/-- Store lookup (`tasks.get(task)`). -/
def storeGet (store : TaskStore) (task : String) : Option TaskRecord :=
  (store.find? (fun kv => kv.1 == task)).map (fun kv => kv.2)

/-- Store update (`tasks[task] = record`). -/
def storePut (store : TaskStore) (task : String) (rec : TaskRecord) : TaskStore :=
  if store.any (fun kv => kv.1 == task) then
    store.map (fun kv => if kv.1 == task then (task, rec) else kv)
  else store ++ [(task, rec)]

/-- src/app/storage.py `load_tasks`.  `readResult` is the outcome of
`TASKS_FILE.read_text()` (none: the read raised); `parseJson` is
`json.loads` restricted to task stores (none: the parse raised).  Both
failures are swallowed by the bare `except`, yielding the empty store. -/
def load_tasks (readResult : Option String)
    (parseJson : String → Option TaskStore) : TaskStore :=
  match readResult with
  | none => []
  | some text =>
    match parseJson text with
    | none => []
    | some tasks => tasks

/-! ## src/app/main.py — process_task -/

/-- External side effects performed by one `process_task` run, in order. -/
inductive Effect where
  /-- a generation call was issued (generate_code / generate_updates). -/
  | generate (files : FileSet)
  /-- `create_repo` was called. -/
  | createRepo (name : String)
  /-- `push_files` was called (one commit for the whole FileSet). -/
  | push (repo : String) (files : FileSet)
  /-- `enable_pages` was called. -/
  | enablePages (repo : String)
  /-- `save_tasks` wrote the store file. -/
  | save
  /-- `notify_eval` was invoked on the evaluation url. -/
  | notify (url : String)
deriving DecidableEq

/-- The environment of one `process_task` run: results of the external
collaborators and clock readings, passed explicitly. -/
structure Env where
  /-- `_call_gemini` result for the round-1 prompt. -/
  gemini : Option String
  /-- `_call_gemini` result for the round-2 update prompt. -/
  geminiUpd : Option String
  /-- `datetime.utcnow().isoformat()` used by the template. -/
  now : String
  /-- `datetime.utcnow().year` used by the license. -/
  year : Nat
  /-- `int(time.time())` used in the repository name. -/
  unixTime : Nat
  /-- `time.strftime(...)` timestamps persisted in the record. -/
  timestampStr : String
  /-- `create_repo` result (html_url). -/
  repoUrlOf : String → String
  /-- `enable_pages` result (pages url). -/
  pagesUrlOf : String → String
  /-- `push_files` result (new commit sha). -/
  pushSha : String

/-- Result of one `process_task` run: the effects performed, the persisted
store afterwards, and the error captured by the top-level except (if
any). -/
structure ProcResult where
  effects : List Effect
  store : TaskStore
  error : Option String
deriving DecidableEq

/-- src/app/main.py `process_task`: round 1 generates, creates the
repository, pushes, enables pages, persists the record and notifies; round 2
requires an existing record (raising `RuntimeError("No round 1 info found
for task: ...")`, caught by the top-level except, when there is none),
then generates updates, pushes to the recorded repository, persists the
round2 field and notifies.  `store` is the result of `load_tasks()`. -/
def process_task (env : Env) (store : TaskStore) (email task nonce brief : String)
    (round : Int) (checks : List String) (evaluation_url : String)
    (attachments : List Attachment) : ProcResult :=
  if round = 1 then
    let files := generate_code env.gemini brief checks attachments env.now env.year
    let repo_name := task ++ "-" ++ Nat.repr env.unixTime
    let repo_url := env.repoUrlOf repo_name
    let commit_sha := env.pushSha
    let pages_url := env.pagesUrlOf repo_name
    let record : TaskRecord :=
      { email := email, repoName := repo_name, repoUrl := repo_url,
        pagesUrl := pages_url, commitSha := commit_sha,
        round1 := ⟨brief, checks, nonce, env.timestampStr⟩, round2 := none }
    { effects := [.generate files, .createRepo repo_name, .push repo_name files,
                  .enablePages repo_name, .save, .notify evaluation_url],
      store := storePut store task record,
      error := none }
  else if round = 2 then
    match storeGet store task with
    | none =>
      { effects := [], store := store,
        error := some ("No round 1 info found for task: " ++ task) }
    | some info =>
      let updated_files := generate_updates env.geminiUpd info brief checks attachments env.now
      let commit_sha := env.pushSha
      let info' : TaskRecord :=
        { info with round2 := some ⟨brief, checks, nonce, commit_sha, env.timestampStr⟩ }
      { effects := [.generate updated_files, .push info.repoName updated_files,
                    .save, .notify evaluation_url],
        store := storePut store task info',
        error := none }
  else
    { effects := [], store := store, error := none }

/-! ## push_files (src/app/github_ops.py and src/github_ops.py) -/

/-- A git commit as visible through the GitHub data API: its tree (path to
blob content; blobs are content-addressed and inlined here), its parent
commit ids, and its message. -/
structure GitCommit where
  tree : List (String × String)
  parents : List Nat
  message : String
deriving DecidableEq

/-- A repository: the commit objects (the sha of a commit is its index in
this list) and the `heads/main` reference. -/
structure GitRepo where
  commits : List GitCommit
  mainRef : Option Nat
deriving DecidableEq

/-- Tree lookup by path. -/
def treeGet (t : List (String × String)) (p : String) : Option String :=
  (t.find? (fun e => e.1 == p)).map (fun e => e.2)

/-- Adding one entry to a tree: replace the path when present, else
append. -/
def setEntry (t : List (String × String)) (p content : String) : List (String × String) :=
  if t.any (fun e => e.1 == p) then
    t.map (fun e => if e.1 == p then (p, content) else e)
  else t ++ [(p, content)]

/-- `create_git_tree(tree=entries, base_tree=base)`: the base tree updated
by one entry per file. -/
def updateTree (base : List (String × String)) (files : FileSet) : List (String × String) :=
  files.foldl (fun t pc => setEntry t pc.1 pc.2) base

/-- src/app/github_ops.py `push_files`: requires `heads/main` to exist
(retrying changes nothing in this static model, so an absent ref is the
exhausted-retries RuntimeError, modelled as none); creates one blob per
file, one tree over the base tree, ONE commit whose sole parent is the
previous head, and moves the ref.  Returns the new commit sha and the new
repository state. -/
def push_files_app (repo : GitRepo) (files : FileSet) : Option (Nat × GitRepo) :=
  match repo.mainRef with
  | none => none
  | some baseSha =>
    match repo.commits[baseSha]? with
    | none => none
    | some base =>
      let newCommit : GitCommit :=
        { tree := updateTree base.tree files, parents := [baseSha],
          message := "Update application" }
      some (repo.commits.length,
        { commits := repo.commits ++ [newCommit], mainRef := some repo.commits.length })

/-- src/github_ops.py `push_files` (create-or-update variant): when
`heads/main` resolves, commit on top of it as above; when resolving the ref
or its commit raises, synthesize an initial commit with no parent over no
base tree and create the ref. -/
def push_files_root (repo : GitRepo) (files : FileSet) : Nat × GitRepo :=
  match repo.mainRef with
  | some baseSha =>
    match repo.commits[baseSha]? with
    | some base =>
      let newCommit : GitCommit :=
        { tree := updateTree base.tree files, parents := [baseSha],
          message := "Update application" }
      (repo.commits.length,
        { commits := repo.commits ++ [newCommit], mainRef := some repo.commits.length })
    | none =>
      let newCommit : GitCommit :=
        { tree := updateTree [] files, parents := [], message := "Initial commit" }
      (repo.commits.length,
        { commits := repo.commits ++ [newCommit], mainRef := some repo.commits.length })
  | none =>
    let newCommit : GitCommit :=
      { tree := updateTree [] files, parents := [], message := "Initial commit" }
    (repo.commits.length,
      { commits := repo.commits ++ [newCommit], mainRef := some repo.commits.length })

/-! ## Shared proof helpers and witness fixtures -/

/-- Helper shared by the round-2 theorems: processing round 2 against a
store with no record for the task yields the no-prior-round error, an empty
effect list and an unchanged store. -/
theorem round2_absent (env : Env) (store : TaskStore) (email task nonce brief : String)
    (checks : List String) (evaluation_url : String) (attachments : List Attachment)
    (h : storeGet store task = none) :
    process_task env store email task nonce brief 2 checks evaluation_url attachments =
      { effects := [], store := store,
        error := some ("No round 1 info found for task: " ++ task) } := by
  simp [process_task, h]

/-- Concrete environment used by witnesses. -/
def envW : Env :=
  { gemini := none, geminiUpd := none, now := "2025-01-01T00:00:00", year := 2025,
    unixTime := 1700000000, timestampStr := "2025-01-01T00:00:00Z",
    repoUrlOf := fun n => "https://github.com/u/" ++ n,
    pagesUrlOf := fun n => "https://u.github.io/" ++ n ++ "/",
    pushSha := "abc123" }

/-- Concrete task record used by witnesses. -/
def someRecord : TaskRecord :=
  { email := "a@b.c", repoName := "t-1700000000", repoUrl := "https://github.com/u/t-1700000000",
    pagesUrl := "https://u.github.io/t-1700000000/", commitSha := "abc123",
    round1 := ⟨"old brief", ["old check"], "n1", "ts1"⟩, round2 := none }

/-- Request body with an invalid email and a non-matching secret. -/
def cexBody : List (String × JVal) :=
  [("email", .str "not-an-email"), ("secret", .str "wrong"), ("task", .str "t"),
   ("round", .num 1), ("nonce", .str "n"), ("brief", .str "b"),
   ("checks", .arr []), ("evaluation_url", .str "https://e.example/x")]

/-- Fully valid request body carrying the secret "wrong". -/
def validBody : List (String × JVal) :=
  [("email", .str "a@b.c"), ("secret", .str "wrong"), ("task", .str "t"),
   ("round", .num 1), ("nonce", .str "n"), ("brief", .str "b"),
   ("checks", .arr []), ("evaluation_url", .str "https://e.example/x")]

/-! ## C9 -/

/-- C9: secret verification is fail-closed — with the expected secret unset
or empty, `verify_secret` rejects every provided value (the empty string
included), and the endpoint never answers with the 200 acknowledgment. -/
theorem C9_fail_closed :
    ∀ (provided : String) (body : List (String × JVal)),
      verify_secret none provided = false ∧
      verify_secret (some "") provided = false ∧
      acceptedB (build none body) = false ∧
      acceptedB (build (some "") body) = false := by
  intro provided body
  have hb : ∀ expected : Option String, truthy expected = false →
      acceptedB (build expected body) = false := by
    intro expected hexp
    unfold build
    cases hv : validate_request body with
    | error u => rfl
    | ok o =>
      cases o with
      | some msg => rfl
      | none =>
        cases hs : jGet body "secret" with
        | none => rfl
        | some v =>
          cases v <;> simp [verify_secret, hexp, acceptedB]
  exact ⟨rfl, rfl, hb none rfl, hb (some "") rfl⟩

/-! ## C3 -/

/-- C3 counterexample: a request whose secret ("wrong") does not match the
configured value ("s3cret") but whose payload is invalid (bad email) is
answered 400, not 401 — the validator runs before the secret check. -/
theorem C3_counterexample :
    verify_secret (some "s3cret") "wrong" = false ∧
    build (some "s3cret") cexBody = .badRequest "Invalid email format" ∧
    statusCode (build (some "s3cret") cexBody) = 400 := by
  refine ⟨rfl, ?_, ?_⟩ <;> decide

/-- C3 (amended): a request that passes payload validation and carries a
non-matching secret is rejected 401; an invalid payload is rejected 400
with the validator message, before the secret is ever checked. -/
theorem C3_valid_then_401 :
    ∀ (expected : Option String) (body : List (String × JVal)) (s : String),
      (validate_request body = .ok none → jGet body "secret" = some (.str s) →
        verify_secret expected s = false → build expected body = .unauthorized) ∧
      (∀ msg, validate_request body = .ok (some msg) →
        build expected body = .badRequest msg) := by
  intro expected body s
  constructor
  · intro hv hs hsec
    simp [build, hv, hs, hsec]
  · intro msg hv
    simp [build, hv]

/-- C3 witness: the amended statement applied to the concrete valid body
with the wrong secret. -/
theorem C3_witness :
    validate_request validBody = .ok none ∧
    jGet validBody "secret" = some (.str "wrong") ∧
    verify_secret (some "s3cret") "wrong" = false ∧
    build (some "s3cret") validBody = .unauthorized :=
  ⟨rfl, rfl, rfl,
    (C3_valid_then_401 (some "s3cret") validBody "wrong").1 rfl rfl rfl⟩

/-! ## C4 -/

/-- C4: a round-2 request whose task id has no persisted record fails with
the identifiable no-prior-round error before any generation, publish or
notification effect, and leaves the task store unchanged. -/
theorem C4_no_prior_round :
    ∀ (env : Env) (store : TaskStore) (email task nonce brief : String)
      (checks : List String) (evaluation_url : String) (attachments : List Attachment),
      storeGet store task = none →
      process_task env store email task nonce brief 2 checks evaluation_url attachments =
        { effects := [], store := store,
          error := some ("No round 1 info found for task: " ++ task) } :=
  fun env store email task nonce brief checks evaluation_url attachments h =>
    round2_absent env store email task nonce brief checks evaluation_url attachments h

/-- C4 witness: the empty store has no record for task "t", and processing
round 2 there produces no effects, keeps the store empty, and reports the
no-prior-round error. -/
theorem C4_witness :
    storeGet ([] : TaskStore) "t" = none ∧
    process_task envW [] "a@b.c" "t" "n" "b" 2 [] "https://e.example/x" [] =
      { effects := [], store := [], error := some "No round 1 info found for task: t" } :=
  ⟨rfl, (C4_no_prior_round envW [] "a@b.c" "t" "n" "b" [] "https://e.example/x" [] rfl).trans
    (by decide)⟩

/-! ## C10 -/

/-- C10: `load_tasks` never raises — a failed read or a failed parse of the
store file yields the empty mapping, and a round-2 request against that
store takes the no-prior-round failure path rather than crashing. -/
theorem C10_load_tasks_never_raises :
    ∀ (readResult : Option String) (parseJson : String → Option TaskStore),
      (readResult = none ∨ ∃ t, readResult = some t ∧ parseJson t = none) →
      load_tasks readResult parseJson = [] ∧
      ∀ (env : Env) (email task nonce brief : String) (checks : List String)
        (evaluation_url : String) (attachments : List Attachment),
        process_task env (load_tasks readResult parseJson) email task nonce brief 2 checks
          evaluation_url attachments =
          { effects := [], store := [],
            error := some ("No round 1 info found for task: " ++ task) } := by
  intro readResult parseJson hfail
  have hempty : load_tasks readResult parseJson = [] := by
    rcases hfail with rfl | ⟨t, rfl, hp⟩
    · rfl
    · simp [load_tasks, hp]
  refine ⟨hempty, ?_⟩
  intro env email task nonce brief checks evaluation_url attachments
  rw [hempty]
  exact round2_absent env [] email task nonce brief checks evaluation_url attachments rfl

/-- C10 witness: a readable but corrupt store file (every parse fails)
loads as the empty mapping, and round-2 processing against it reports the
no-prior-round error with no effects. -/
theorem C10_witness :
    load_tasks (some "corrupt !") (fun _ => none) = [] ∧
    process_task envW (load_tasks (some "corrupt !") (fun _ => none))
      "a@b.c" "t2" "n" "b" 2 [] "https://e.example/x" [] =
      { effects := [], store := [], error := some "No round 1 info found for task: t2" } := by
  have h := C10_load_tasks_never_raises (some "corrupt !") (fun _ => none)
    (Or.inr ⟨"corrupt !", rfl, rfl⟩)
  exact ⟨h.1, (h.2 envW "a@b.c" "t2" "n" "b" [] "https://e.example/x" []).trans (by decide)⟩

/-! ## C5 -/

/-- C5: with the generation call unavailable (no usable response, or a
response whose extracted text fails the acceptance test) the generators
still return — they are total functions — and the returned FileSet has
exactly the keys index.html, README.md, LICENSE in round 1 and exactly
index.html, README.md in round 2. -/
theorem C5_fallback_keys :
    ∀ (g : Option String) (brief : String) (checks : List String)
      (attachments : List Attachment) (now : String) (year : Nat) (info : TaskRecord),
      ((g = none ∨ ∃ t, g = some t ∧ acceptsRound1 (_extract_html t) = false) →
        (generate_code g brief checks attachments now year).map Prod.fst =
          ["index.html", "README.md", "LICENSE"]) ∧
      ((g = none ∨ ∃ t, g = some t ∧ acceptsRound2 (_extract_html t) = false) →
        (generate_updates g info brief checks attachments now).map Prod.fst =
          ["index.html", "README.md"]) := by
  intro g brief checks attachments now year info
  constructor
  · rintro (rfl | ⟨t, rfl, hacc⟩)
    · simp [generate_code]
    · simp [generate_code, hacc]
  · rintro (rfl | ⟨t, rfl, hacc⟩)
    · simp [generate_updates]
    · simp [generate_updates, hacc]

/-- C5 witness: with the generation call down (modelled by none), the
round-1 file set has exactly the three keys and the round-2 file set
exactly the two. -/
theorem C5_witness :
    (generate_code none "b" ["c"] [] "N" 2025).map Prod.fst =
      ["index.html", "README.md", "LICENSE"] ∧
    (generate_updates none someRecord "b" ["c"] [] "N").map Prod.fst =
      ["index.html", "README.md"] :=
  ⟨(C5_fallback_keys none "b" ["c"] [] "N" 2025 someRecord).1 (Or.inl rfl),
   (C5_fallback_keys none "b" ["c"] [] "N" 2025 someRecord).2 (Or.inl rfl)⟩

/-! ## C2 -/

/-- Closed-form description of the notifier trace over the concrete delay
schedule [1, 2, 4, 8, 16]: stop at the first 200, one sleep after every
failed attempt but the fifth. -/
theorem notify_eval_closed (respond : Nat → Option Nat) :
    notify_eval respond =
      if respond 1 = some 200 then ⟨1, [], true⟩
      else if respond 2 = some 200 then ⟨2, [1], true⟩
      else if respond 3 = some 200 then ⟨3, [1, 2], true⟩
      else if respond 4 = some 200 then ⟨4, [1, 2, 4], true⟩
      else if respond 5 = some 200 then ⟨5, [1, 2, 4, 8], true⟩
      else ⟨5, [1, 2, 4, 8], false⟩ := by
  simp only [notify_eval, delays, notify_go]
  norm_num
  split_ifs <;> rfl

/-- C2: the notifier makes at most 5 POST attempts, an attempt succeeds
exactly when it returns status 200 (any other status or a transport error is
a failure), no attempt follows the first 200, the sleeps are 1, 2, 4, 8
seconds when the first four attempts fail, and no attempt follows the fifth;
being a total function of the per-attempt outcomes it returns without
raising in every case. -/
theorem C2_notify_retry :
    ∀ respond : Nat → Option Nat,
      (notify_eval respond).attempts ≤ 5 ∧
      ((notify_eval respond).success = true ↔
        ∃ i, 1 ≤ i ∧ i ≤ 5 ∧ respond i = some 200) ∧
      (∀ i, 1 ≤ i → i < (notify_eval respond).attempts → respond i ≠ some 200) ∧
      (∀ i, 1 ≤ i → i ≤ 5 → respond i = some 200 → (notify_eval respond).attempts ≤ i) ∧
      ((∀ i, 1 ≤ i → i ≤ 4 → respond i ≠ some 200) →
        (notify_eval respond).attempts = 5 ∧ (notify_eval respond).sleeps = [1, 2, 4, 8]) := by
  intro respond
  have hA : (notify_eval respond).attempts ≤ 5 := by
    rw [notify_eval_closed]; split_ifs <;> norm_num
  have hS : (notify_eval respond).success = true ↔
      ∃ i, 1 ≤ i ∧ i ≤ 5 ∧ respond i = some 200 := by
    rw [notify_eval_closed]; split_ifs with h1 h2 h3 h4 h5
    · exact ⟨fun _ => ⟨1, by omega, by omega, h1⟩, fun _ => rfl⟩
    · exact ⟨fun _ => ⟨2, by omega, by omega, h2⟩, fun _ => rfl⟩
    · exact ⟨fun _ => ⟨3, by omega, by omega, h3⟩, fun _ => rfl⟩
    · exact ⟨fun _ => ⟨4, by omega, by omega, h4⟩, fun _ => rfl⟩
    · exact ⟨fun _ => ⟨5, by omega, by omega, h5⟩, fun _ => rfl⟩
    · constructor
      · intro h; simp at h
      · rintro ⟨i, hi1, hi5, h200⟩
        exfalso; interval_cases i
        · exact h1 h200
        · exact h2 h200
        · exact h3 h200
        · exact h4 h200
        · exact h5 h200
  have hStop : ∀ i, 1 ≤ i → i < (notify_eval respond).attempts →
      respond i ≠ some 200 := by
    rw [notify_eval_closed]; split_ifs with h1 h2 h3 h4 h5 <;> intro i hi1 hilt
    · replace hilt : i < 1 := hilt
      exact absurd hi1 (by omega)
    · replace hilt : i < 2 := hilt
      have : i = 1 := by omega
      subst this; exact h1
    · replace hilt : i < 3 := hilt
      interval_cases i <;> assumption
    · replace hilt : i < 4 := hilt
      interval_cases i <;> assumption
    · replace hilt : i < 5 := hilt
      interval_cases i <;> assumption
    · replace hilt : i < 5 := hilt
      interval_cases i <;> assumption
  have hBound : ∀ i, 1 ≤ i → i ≤ 5 → respond i = some 200 →
      (notify_eval respond).attempts ≤ i := by
    rw [notify_eval_closed]; split_ifs with h1 h2 h3 h4 h5 <;> intro i hi1 hi5 h200
    · exact hi1
    · show 2 ≤ i
      have : i ≠ 1 := fun e => h1 (e ▸ h200)
      omega
    · show 3 ≤ i
      have n1 : i ≠ 1 := fun e => h1 (e ▸ h200)
      have n2 : i ≠ 2 := fun e => h2 (e ▸ h200)
      omega
    · show 4 ≤ i
      have n1 : i ≠ 1 := fun e => h1 (e ▸ h200)
      have n2 : i ≠ 2 := fun e => h2 (e ▸ h200)
      have n3 : i ≠ 3 := fun e => h3 (e ▸ h200)
      omega
    · show 5 ≤ i
      have n1 : i ≠ 1 := fun e => h1 (e ▸ h200)
      have n2 : i ≠ 2 := fun e => h2 (e ▸ h200)
      have n3 : i ≠ 3 := fun e => h3 (e ▸ h200)
      have n4 : i ≠ 4 := fun e => h4 (e ▸ h200)
      omega
    · exfalso; interval_cases i
      · exact h1 h200
      · exact h2 h200
      · exact h3 h200
      · exact h4 h200
      · exact h5 h200
  have hSleep : (∀ i, 1 ≤ i → i ≤ 4 → respond i ≠ some 200) →
      (notify_eval respond).attempts = 5 ∧ (notify_eval respond).sleeps = [1, 2, 4, 8] := by
    intro hall
    rw [notify_eval_closed]
    rw [if_neg (hall 1 (by omega) (by omega)), if_neg (hall 2 (by omega) (by omega)),
      if_neg (hall 3 (by omega) (by omega)), if_neg (hall 4 (by omega) (by omega))]
    by_cases h5 : respond 5 = some 200
    · rw [if_pos h5]; exact ⟨rfl, rfl⟩
    · rw [if_neg h5]; exact ⟨rfl, rfl⟩
  exact ⟨hA, hS, hStop, hBound, hSleep⟩

/-- Concrete collaborator for the C2 witness: non-200 on the first four
attempts, 200 on the fifth. -/
def respondW : Nat → Option Nat := fun i => if i = 5 then some 200 else some 500

/-- C2 witness: against `respondW` exactly 5 attempts are made with sleeps
1, 2, 4, 8 between them, ending in success. -/
theorem C2_witness :
    notify_eval respondW = ⟨5, [1, 2, 4, 8], true⟩ ∧
    (notify_eval respondW).attempts = 5 ∧ (notify_eval respondW).sleeps = [1, 2, 4, 8] := by
  refine ⟨by decide, ?_⟩
  exact (C2_notify_retry respondW).2.2.2.2
    (fun i hi1 hi4 => by interval_cases i <;> decide)

/-! ## C6 -/

/-- Searching the replaced key after the in-place replacement branch of
`setEntry`. -/
theorem find_replace_self (t : List (String × String)) (p v : String) :
    List.find? (fun kv => kv.1 == p) (t.map (fun e => if e.1 == p then (p, v) else e)) =
      if t.any (fun e => e.1 == p) then some (p, v) else none := by
  induction t with
  | nil => rfl
  | cons e t ih =>
    simp only [List.map_cons, List.any_cons]
    by_cases he : e.1 = p
    · rw [if_pos (by simpa using he), List.find?_cons_of_pos _ (by simp),
        if_pos (by simp [he])]
    · rw [if_neg (by simpa using he), List.find?_cons_of_neg _ (by simpa using he), ih]
      by_cases ha : t.any (fun e => e.1 == p) = true
      · rw [if_pos ha, if_pos (by simp [ha])]
      · rw [if_neg ha, if_neg (by simp [he, ha])]

/-- Searching any other key is unaffected by the replacement branch of
`setEntry`. -/
theorem find_replace_other (t : List (String × String)) (p v q : String)
    (hq : q ≠ p) :
    List.find? (fun kv => kv.1 == q) (t.map (fun e => if e.1 == p then (p, v) else e)) =
      List.find? (fun kv => kv.1 == q) t := by
  induction t with
  | nil => rfl
  | cons e t ih =>
    simp only [List.map_cons]
    by_cases he : e.1 = p
    · rw [if_pos (by simpa using he)]
      have h1 : ¬(fun kv : String × String => kv.1 == q) (p, v) = true := by
        simpa using (hq.symm : p ≠ q)
      have h2 : ¬(fun kv : String × String => kv.1 == q) e = true := by
        simp only [beq_iff_eq, he]
        exact (hq.symm : p ≠ q)
      rw [@List.find?_cons_of_neg _ (fun kv : String × String => kv.1 == q) (p, v) _ h1,
        @List.find?_cons_of_neg _ (fun kv : String × String => kv.1 == q) e _ h2]
      exact ih
    · rw [if_neg (by simpa using he)]
      by_cases heq : e.1 = q
      · rw [List.find?_cons_of_pos _ (by simpa using heq),
          List.find?_cons_of_pos _ (by simpa using heq)]
      · rw [List.find?_cons_of_neg _ (by simpa using heq),
          List.find?_cons_of_neg _ (by simpa using heq)]
        exact ih

/-- `setEntry` makes the entry it sets visible at its key. -/
theorem treeGet_setEntry_self (t : List (String × String)) (p v : String) :
    treeGet (setEntry t p v) p = some v := by
  unfold setEntry
  by_cases h : t.any (fun e => e.1 == p) = true
  · rw [if_pos h]
    unfold treeGet
    rw [find_replace_self, if_pos h]
    rfl
  · rw [if_neg h]
    unfold treeGet
    rw [List.find?_append]
    have hnone : t.find? (fun kv => kv.1 == p) = none := by
      refine List.find?_eq_none.2 (fun x hx => ?_)
      have := List.any_eq_false.1 (Bool.not_eq_true _ ▸ h) x hx
      simpa using this
    rw [hnone]
    simp [List.find?]

/-- `setEntry` leaves every other key unchanged. -/
theorem treeGet_setEntry_other (t : List (String × String)) (p v q : String)
    (hq : q ≠ p) : treeGet (setEntry t p v) q = treeGet t q := by
  unfold setEntry
  by_cases h : t.any (fun e => e.1 == p) = true
  · rw [if_pos h]
    unfold treeGet
    rw [find_replace_other t p v q hq]
  · rw [if_neg h]
    unfold treeGet
    rw [List.find?_append]
    have hone : List.find? (fun kv => kv.1 == q) [(p, v)] = none := by
      simp [hq.symm]
    rw [hone]
    exact congrArg _ Option.or_none

/-- Unfolding one step of `updateTree`. -/
theorem updateTree_cons (t : List (String × String)) (f : String × String)
    (fs : FileSet) : updateTree t (f :: fs) = updateTree (setEntry t f.1 f.2) fs := rfl

/-- Keys not named by the FileSet keep their value through `updateTree`. -/
theorem treeGet_updateTree_not_mem (files : FileSet) (t : List (String × String))
    (p : String) (hp : p ∉ files.map Prod.fst) :
    treeGet (updateTree t files) p = treeGet t p := by
  induction files generalizing t with
  | nil => rfl
  | cons f fs ih =>
    rw [updateTree_cons]
    have hp1 : p ≠ f.1 := by
      intro e; exact hp (by simp [e])
    have hp2 : p ∉ fs.map Prod.fst := fun m => hp (by simp [m])
    rw [ih _ hp2]
    exact treeGet_setEntry_other t f.1 f.2 p hp1

/-- Every file of a FileSet with distinct keys appears in the updated
tree. -/
theorem treeGet_updateTree_mem (files : FileSet) (t : List (String × String))
    (hnd : (files.map Prod.fst).Nodup) (p v : String) (hmem : (p, v) ∈ files) :
    treeGet (updateTree t files) p = some v := by
  induction files generalizing t with
  | nil => cases hmem
  | cons f fs ih =>
    rw [List.map_cons, List.nodup_cons] at hnd
    rcases List.mem_cons.1 hmem with heq | hmem2
    · subst heq
      rw [updateTree_cons, treeGet_updateTree_not_mem fs _ p hnd.1]
      exact treeGet_setEntry_self t p v
    · rw [updateTree_cons]
      exact ih _ hnd.2 hmem2

/-- C6: both publish variants put the whole FileSet into exactly one new
commit — the commit list grows by a single element, never one commit per
file — whose parent list is exactly the previous head of main (empty for a
true initial commit in the create-or-update variant), and return that
commit's identifier with main moved onto it. -/
theorem C6_single_commit :
    ∀ (repo : GitRepo) (files : FileSet) (baseSha : Nat) (base : GitCommit),
      (repo.mainRef = some baseSha → repo.commits[baseSha]? = some base →
        ∃ c : GitCommit,
          push_files_app repo files = some (repo.commits.length,
            { commits := repo.commits ++ [c], mainRef := some repo.commits.length }) ∧
          push_files_root repo files = (repo.commits.length,
            { commits := repo.commits ++ [c], mainRef := some repo.commits.length }) ∧
          c.parents = [baseSha] ∧
          ((files.map Prod.fst).Nodup →
            ∀ p v, (p, v) ∈ files → treeGet c.tree p = some v)) ∧
      (repo.mainRef = none →
        ∃ c : GitCommit,
          push_files_root repo files = (repo.commits.length,
            { commits := repo.commits ++ [c], mainRef := some repo.commits.length }) ∧
          c.parents = [] ∧
          ((files.map Prod.fst).Nodup →
            ∀ p v, (p, v) ∈ files → treeGet c.tree p = some v)) := by
  intro repo files baseSha base
  constructor
  · intro h1 h2
    refine ⟨⟨updateTree base.tree files, [baseSha], "Update application"⟩, ?_, ?_, rfl, ?_⟩
    · simp [push_files_app, h1, h2]
    · simp [push_files_root, h1, h2]
    · intro hnd p v hmem
      exact treeGet_updateTree_mem files base.tree hnd p v hmem
  · intro h1
    refine ⟨⟨updateTree [] files, [], "Initial commit"⟩, ?_, rfl, ?_⟩
    · simp [push_files_root, h1]
    · intro hnd p v hmem
      exact treeGet_updateTree_mem files [] hnd p v hmem

/-- Seed commit of the witness repository. -/
def seedCommit : GitCommit := ⟨[("README.md", "seed")], [], "Initial commit"⟩

/-- Witness repository: one auto-init commit, main pointing at it. -/
def repoW : GitRepo := ⟨[seedCommit], some 0⟩

/-- Witness FileSet. -/
def filesW : FileSet := [("index.html", "X"), ("README.md", "Y"), ("LICENSE", "Z")]

/-- C6 witness: pushing three files onto the seeded repository yields one
new commit with the old head as sole parent, carrying the files. -/
theorem C6_witness :
    repoW.mainRef = some 0 ∧ repoW.commits[0]? = some seedCommit ∧
    ∃ c : GitCommit,
      push_files_app repoW filesW = some (repoW.commits.length,
        { commits := repoW.commits ++ [c], mainRef := some repoW.commits.length }) ∧
      c.parents = [0] ∧ treeGet c.tree "index.html" = some "X" := by
  obtain ⟨c, happ, hroot, hpar, htree⟩ :=
    (C6_single_commit repoW filesW 0 seedCommit).1 rfl rfl
  exact ⟨rfl, rfl, c, happ, hpar, htree (by decide) "index.html" "X" (by decide)⟩

/-! ## C7 -/

/-- C7 counterexample: a brief mentioning "csv" does not always yield the
totals-table markup — the captcha branch has priority in the if/elif chain,
so the brief "captcha csv" produces the captcha markup instead. -/
theorem C7_counterexample :
    is_csv (pyLower "captcha csv") = true ∧
    _smart_template "captcha csv" [] [] "T" ≠
      templateWith "captcha csv" csvHtml csvJs "T" := by
  exact ⟨by decide, by decide⟩

/-- C7 (amended): the widget variant is selected by the source's if/elif
priority chain over case-insensitive substring matches on the brief: a
brief mentioning "captcha" yields the captcha markup; otherwise one
mentioning "csv" or "sales" yields the totals-table markup; otherwise one
mentioning "markdown" yields the tabbed preview/source markup; otherwise
one mentioning both "github" and "user" yields the username-lookup form;
a brief matching none of the keywords yields the hello-world clock markup
(with ids hello and date). -/
theorem C7_widget_selection :
    ∀ (b : String) (c : List String) (a : List Attachment) (n : String),
      (is_captcha (pyLower b) = true →
        _smart_template b c a n = templateWith b captchaHtml captchaJs n) ∧
      (is_captcha (pyLower b) = false → is_csv (pyLower b) = true →
        _smart_template b c a n = templateWith b csvHtml csvJs n) ∧
      (is_captcha (pyLower b) = false → is_csv (pyLower b) = false →
        is_markdown (pyLower b) = true →
        _smart_template b c a n = templateWith b markdownHtml markdownJs n) ∧
      (is_captcha (pyLower b) = false → is_csv (pyLower b) = false →
        is_markdown (pyLower b) = false → is_github (pyLower b) = true →
        _smart_template b c a n = templateWith b githubHtml githubJs n) ∧
      (is_captcha (pyLower b) = false → is_csv (pyLower b) = false →
        is_markdown (pyLower b) = false → is_github (pyLower b) = false →
        _smart_template b c a n = templateWith b clockHtml clockJs n ∧
        pyIn "id=\"hello\"" clockHtml = true ∧ pyIn "id=\"date\"" clockHtml = true) := by
  intro b c a n
  refine ⟨?_, ?_, ?_, ?_, ?_⟩
  · intro h1
    simp [_smart_template, widgetHtml, widgetJs, h1]
  · intro h1 h2
    simp [_smart_template, widgetHtml, widgetJs, h1, h2]
  · intro h1 h2 h3
    simp [_smart_template, widgetHtml, widgetJs, h1, h2, h3]
  · intro h1 h2 h3 h4
    simp [_smart_template, widgetHtml, widgetJs, h1, h2, h3, h4]
  · intro h1 h2 h3 h4
    exact ⟨by simp [_smart_template, widgetHtml, widgetJs, h1, h2, h3, h4],
      by decide, by decide⟩

/-- C7 witness: concrete briefs exercising the captcha, csv and default
branches of the amended selection rule. -/
theorem C7_witness :
    is_captcha (pyLower "solve a captcha") = true ∧
    _smart_template "solve a captcha" [] [] "T" =
      templateWith "solve a captcha" captchaHtml captchaJs "T" ∧
    is_captcha (pyLower "sum SALES data") = false ∧
    is_csv (pyLower "sum SALES data") = true ∧
    _smart_template "sum SALES data" [] [] "T" =
      templateWith "sum SALES data" csvHtml csvJs "T" ∧
    _smart_template "hello world" [] [] "T" =
      templateWith "hello world" clockHtml clockJs "T" :=
  ⟨by decide, (C7_widget_selection "solve a captcha" [] [] "T").1 (by decide),
   by decide, by decide,
   (C7_widget_selection "sum SALES data" [] [] "T").2.1 (by decide) (by decide),
   ((C7_widget_selection "hello world" [] [] "T").2.2.2.2
     (by decide) (by decide) (by decide) (by decide)).1⟩

/-! ## C1 -/

/-- Modelled from the spec: the acceptance test as the spec words it — the
candidate text must BEGIN with a case-insensitive doctype marker and contain
a case-insensitive closing html tag.  Declared only to compare the spec's
wording with the code's actual containment test. -/
def specAcceptsHtml (s : String) : Bool :=
  "<!doctype".toList.isPrefixOf (pyLower s).toList && pyIn "</html>" (pyLower s)

/-- Candidate text that contains but does not begin with the doctype
marker. -/
def cand1 : String := "junk<!DOCTYPE html></html>"

/-- Candidate text accepted by the round-2 test although it has no closing
html tag. -/
def cand2 : String := "<!DOCTYPE html><body>no closing tag</body>"

/-- C1 counterexample: the round-1 generator returns as index.html a text
that fails the spec's prefix test (it merely contains the marker), and the
round-2 generator returns as index.html a text with no closing html tag —
neither triggers the fallback as the claim requires. -/
theorem C1_counterexample :
    specAcceptsHtml (_extract_html cand1) = false ∧
    dictGet (generate_code (some cand1) "b" [] [] "N" 2025) "index.html" = some cand1 ∧
    specAcceptsHtml (_extract_html cand2) = false ∧
    dictGet (generate_updates (some cand2) someRecord "b" [] [] "N") "index.html" =
      some cand2 := by
  exact ⟨by decide, by decide, by decide, by decide⟩

/-- C1 (amended): the round-1 generator returns the extracted candidate as
index.html exactly when it is nonempty, contains a case-insensitive
"<!DOCTYPE" and contains a case-insensitive "</html>"; otherwise it behaves
as if generation were unavailable (deterministic fallback).  The round-2
generator does the same but its test requires only the nonempty
case-insensitive "<!DOCTYPE" containment, with no closing-tag test. -/
theorem C1_acceptance :
    ∀ (t brief : String) (checks : List String) (atts : List Attachment)
      (now : String) (year : Nat) (info : TaskRecord),
      (acceptsRound1 (_extract_html t) = false →
        generate_code (some t) brief checks atts now year =
          generate_code none brief checks atts now year) ∧
      (acceptsRound1 (_extract_html t) = true →
        dictGet (generate_code (some t) brief checks atts now year) "index.html" =
          some (_extract_html t)) ∧
      (acceptsRound2 (_extract_html t) = false →
        generate_updates (some t) info brief checks atts now =
          generate_updates none info brief checks atts now) ∧
      (acceptsRound2 (_extract_html t) = true →
        dictGet (generate_updates (some t) info brief checks atts now) "index.html" =
          some (_extract_html t)) := by
  intro t brief checks atts now year info
  refine ⟨?_, ?_, ?_, ?_⟩
  · intro h
    simp [generate_code, h]
  · intro h
    simp [generate_code, h, dictGet]
  · intro h
    simp [generate_updates, h]
  · intro h
    simp [generate_updates, h, dictGet]

/-- C1 witness: a rejected candidate falls back exactly to the
generation-unavailable output, and an accepted candidate is returned
verbatim as index.html. -/
theorem C1_witness :
    acceptsRound1 (_extract_html "no doctype here") = false ∧
    generate_code (some "no doctype here") "b" [] [] "N" 2025 =
      generate_code none "b" [] [] "N" 2025 ∧
    acceptsRound1 (_extract_html "<!doctype html>x</HTML>") = true ∧
    dictGet (generate_code (some "<!doctype html>x</HTML>") "b" [] [] "N" 2025)
      "index.html" = some (_extract_html "<!doctype html>x</HTML>") :=
  ⟨by decide,
   (C1_acceptance "no doctype here" "b" [] [] "N" 2025 someRecord).1 (by decide),
   by decide,
   (C1_acceptance "<!doctype html>x</HTML>" "b" [] [] "N" 2025 someRecord).2.1 (by decide)⟩

/-! ## C8 -/

/-- Timestamp-independent prefix of the fallback template: everything that
precedes the generation-timestamp splice. -/
def smartPre (brief : String) : String :=
  smartHead (titleOf brief) brief ++
    widgetHtml (is_captcha (pyLower brief)) (is_csv (pyLower brief))
      (is_markdown (pyLower brief)) (is_github (pyLower brief)) ++ footerA

/-- Timestamp-independent suffix of the fallback template: everything that
follows the generation-timestamp splice. -/
def smartSuf (brief : String) : String :=
  footerB ++
    widgetJs (is_captcha (pyLower brief)) (is_csv (pyLower brief))
      (is_markdown (pyLower brief)) (is_github (pyLower brief)) ++ closingPiece

/-- Dedented license text preceding the stamped year. -/
def licensePre : String := "MIT License\n\nCopyright (c) "

/-- Dedented license text following the stamped year. -/
def licenseSuf : String :=
  "\n\nPermission is hereby granted, free of charge, to any person obtaining a copy\nof this software and associated documentation files (the \"Software\"), to deal\nin the Software without restriction, including without limitation the rights\nto use, copy, modify, merge, publish, distribute, sublicense, and/or sell\ncopies of the Software, and to permit persons to do so, subject to the\nfollowing conditions:\n\nThe above copyright notice and this permission notice shall be included in all\ncopies or substantial portions of the Software.\n\nTHE SOFTWARE IS PROVIDED \"AS IS\", WITHOUT WARRANTY OF ANY KIND, EXPRESS OR\nIMPLIED, INCLUDING BUT NOT LIMITED TO THE WARRANTIES OF MERCHANTABILITY,\nFITNESS FOR A PARTICULAR PURPOSE AND NONINFRINGEMENT. IN NO EVENT SHALL THE\nAUTHORS OR COPYRIGHT HOLDERS BE LIABLE FOR ANY CLAIM, DAMAGES OR OTHER\nLIABILITY, WHETHER IN AN ACTION OF CONTRACT, TORT OR OTHERWISE, ARISING FROM,\nOUT OF OR IN CONNECTION WITH THE SOFTWARE OR THE USE OR OTHER DEALINGS IN THE\nSOFTWARE.\n"

/-- Lines of the raw license tail (after the year splice), split at newline
characters. -/
def licTailLines : List (List Char) :=
  (["",
    "    Permission is hereby granted, free of charge, to any person obtaining a copy",
    "    of this software and associated documentation files (the \"Software\"), to deal",
    "    in the Software without restriction, including without limitation the rights",
    "    to use, copy, modify, merge, publish, distribute, sublicense, and/or sell",
    "    copies of the Software, and to permit persons to do so, subject to the",
    "    following conditions:",
    "",
    "    The above copyright notice and this permission notice shall be included in all",
    "    copies or substantial portions of the Software.",
    "",
    "    THE SOFTWARE IS PROVIDED \"AS IS\", WITHOUT WARRANTY OF ANY KIND, EXPRESS OR",
    "    IMPLIED, INCLUDING BUT NOT LIMITED TO THE WARRANTIES OF MERCHANTABILITY,",
    "    FITNESS FOR A PARTICULAR PURPOSE AND NONINFRINGEMENT. IN NO EVENT SHALL THE",
    "    AUTHORS OR COPYRIGHT HOLDERS BE LIABLE FOR ANY CLAIM, DAMAGES OR OTHER",
    "    LIABILITY, WHETHER IN AN ACTION OF CONTRACT, TORT OR OTHERWISE, ARISING FROM,",
    "    OUT OF OR IN CONNECTION WITH THE SOFTWARE OR THE USE OR OTHER DEALINGS IN THE",
    "    SOFTWARE.",
    "    "].map String.toList)

/-- The license tail lines after the blank-line normalization of dedent
(the trailing whitespace-only line becomes empty). -/
def licTailNormed : List (List Char) :=
  (["",
    "    Permission is hereby granted, free of charge, to any person obtaining a copy",
    "    of this software and associated documentation files (the \"Software\"), to deal",
    "    in the Software without restriction, including without limitation the rights",
    "    to use, copy, modify, merge, publish, distribute, sublicense, and/or sell",
    "    copies of the Software, and to permit persons to do so, subject to the",
    "    following conditions:",
    "",
    "    The above copyright notice and this permission notice shall be included in all",
    "    copies or substantial portions of the Software.",
    "",
    "    THE SOFTWARE IS PROVIDED \"AS IS\", WITHOUT WARRANTY OF ANY KIND, EXPRESS OR",
    "    IMPLIED, INCLUDING BUT NOT LIMITED TO THE WARRANTIES OF MERCHANTABILITY,",
    "    FITNESS FOR A PARTICULAR PURPOSE AND NONINFRINGEMENT. IN NO EVENT SHALL THE",
    "    AUTHORS OR COPYRIGHT HOLDERS BE LIABLE FOR ANY CLAIM, DAMAGES OR OTHER",
    "    LIABILITY, WHETHER IN AN ACTION OF CONTRACT, TORT OR OTHERWISE, ARISING FROM,",
    "    OUT OF OR IN CONNECTION WITH THE SOFTWARE OR THE USE OR OTHER DEALINGS IN THE",
    "    SOFTWARE.",
    ""].map String.toList)

/-- The content lines of the normalized license tail. -/
def licContentTail : List (List Char) :=
  (["    Permission is hereby granted, free of charge, to any person obtaining a copy",
    "    of this software and associated documentation files (the \"Software\"), to deal",
    "    in the Software without restriction, including without limitation the rights",
    "    to use, copy, modify, merge, publish, distribute, sublicense, and/or sell",
    "    copies of the Software, and to permit persons to do so, subject to the",
    "    following conditions:",
    "    The above copyright notice and this permission notice shall be included in all",
    "    copies or substantial portions of the Software.",
    "    THE SOFTWARE IS PROVIDED \"AS IS\", WITHOUT WARRANTY OF ANY KIND, EXPRESS OR",
    "    IMPLIED, INCLUDING BUT NOT LIMITED TO THE WARRANTIES OF MERCHANTABILITY,",
    "    FITNESS FOR A PARTICULAR PURPOSE AND NONINFRINGEMENT. IN NO EVENT SHALL THE",
    "    AUTHORS OR COPYRIGHT HOLDERS BE LIABLE FOR ANY CLAIM, DAMAGES OR OTHER",
    "    LIABILITY, WHETHER IN AN ACTION OF CONTRACT, TORT OR OTHERWISE, ARISING FROM,",
    "    OUT OF OR IN CONNECTION WITH THE SOFTWARE OR THE USE OR OTHER DEALINGS IN THE",
    "    SOFTWARE."].map String.toList)

/-- The license tail lines after the margin strip of dedent. -/
def licTailStripped : List (List Char) :=
  (["",
    "Permission is hereby granted, free of charge, to any person obtaining a copy",
    "of this software and associated documentation files (the \"Software\"), to deal",
    "in the Software without restriction, including without limitation the rights",
    "to use, copy, modify, merge, publish, distribute, sublicense, and/or sell",
    "copies of the Software, and to permit persons to do so, subject to the",
    "following conditions:",
    "",
    "The above copyright notice and this permission notice shall be included in all",
    "copies or substantial portions of the Software.",
    "",
    "THE SOFTWARE IS PROVIDED \"AS IS\", WITHOUT WARRANTY OF ANY KIND, EXPRESS OR",
    "IMPLIED, INCLUDING BUT NOT LIMITED TO THE WARRANTIES OF MERCHANTABILITY,",
    "FITNESS FOR A PARTICULAR PURPOSE AND NONINFRINGEMENT. IN NO EVENT SHALL THE",
    "AUTHORS OR COPYRIGHT HOLDERS BE LIABLE FOR ANY CLAIM, DAMAGES OR OTHER",
    "LIABILITY, WHETHER IN AN ACTION OF CONTRACT, TORT OR OTHERWISE, ARISING FROM,",
    "OUT OF OR IN CONNECTION WITH THE SOFTWARE OR THE USE OR OTHER DEALINGS IN THE",
    "SOFTWARE.",
    ""].map String.toList)

/-- digitChar never produces a newline. -/
theorem digitChar_ne_newline (m : Nat) : Nat.digitChar m ≠ '\n' := by
  rcases Nat.lt_or_ge m 16 with h | h
  · interval_cases m <;> decide
  · unfold Nat.digitChar
    repeat rw [if_neg (show ¬_ from by omega)]
    decide

/-- toDigitsCore only prepends digit characters to its accumulator. -/
theorem toDigitsCore_no_newline (fuel : Nat) :
    ∀ (n : Nat) (acc : List Char), '\n' ∉ acc → '\n' ∉ Nat.toDigitsCore 10 fuel n acc := by
  induction fuel with
  | zero => intro n acc h; exact h
  | succ fuel ih =>
    intro n acc h
    have hd : '\n' ∉ Nat.digitChar (n % 10) :: acc := by
      intro hmem
      rcases List.mem_cons.1 hmem with he | hm
      · exact digitChar_ne_newline (n % 10) he.symm
      · exact h hm
    show '\n' ∉ Nat.toDigitsCore 10 (fuel + 1) n acc
    simp only [Nat.toDigitsCore]
    split_ifs with hz
    · exact hd
    · exact ih (n / 10) (Nat.digitChar (n % 10) :: acc) hd

/-- Nat.repr never contains a newline. -/
theorem repr_no_newline (n : Nat) : '\n' ∉ (Nat.repr n).toList :=
  toDigitsCore_no_newline (n + 1) n [] (by simp)

/-- splitLines always produces at least one line. -/
theorem splitLines_ne_nil (l : List Char) : splitLines l ≠ [] := by
  cases l with
  | nil => simp [splitLines]
  | cons c rest =>
    unfold splitLines
    split_ifs
    · simp
    · cases h : splitLines rest <;> simp

/-- Glue two line lists at their junction: the last line of the first part
joins the first line of the second part. -/
def glueLines : List (List Char) → List (List Char) → List (List Char)
  | [], ys => ys
  | [x], [] => [x]
  | [x], y :: ys => (x ++ y) :: ys
  | x :: xs, ys => x :: glueLines xs ys

/-- Splitting an appended character list glues the line lists. -/
theorem splitLines_append (xs ys : List Char) :
    splitLines (xs ++ ys) = glueLines (splitLines xs) (splitLines ys) := by
  induction xs with
  | nil =>
    show splitLines ys = glueLines [[]] (splitLines ys)
    cases h : splitLines ys with
    | nil => exact absurd h (splitLines_ne_nil ys)
    | cons l ls => simp [glueLines]
  | cons c xs ih =>
    show splitLines (c :: (xs ++ ys)) = glueLines (splitLines (c :: xs)) (splitLines ys)
    by_cases hc : c = '\n'
    · subst hc
      simp only [splitLines, if_pos rfl]
      rw [ih]
      cases h : splitLines xs with
      | nil => exact absurd h (splitLines_ne_nil xs)
      | cons l ls => simp [glueLines]
    · simp only [splitLines, if_neg hc]
      rw [ih]
      cases hx : splitLines xs with
      | nil => exact absurd hx (splitLines_ne_nil xs)
      | cons l ls =>
        cases ls with
        | nil =>
          cases hy : splitLines ys with
          | nil => exact absurd hy (splitLines_ne_nil ys)
          | cons m ms => simp [glueLines]
        | cons l2 ls2 => simp [glueLines]

/-- A newline-free character list is a single line. -/
theorem splitLines_no_newline (s : List Char) (hs : '\n' ∉ s) :
    splitLines s = [s] := by
  induction s with
  | nil => rfl
  | cons c rest ih =>
    have hc : c ≠ '\n' := fun e => hs (by simp [e])
    have hr : '\n' ∉ rest := fun m => hs (List.mem_cons_of_mem _ m)
    simp [splitLines, if_neg hc, ih hr]

/-- takeWhile of an append stops in the first part when not all of it
satisfies the predicate. -/
theorem takeWhile_append_of_all_false (p : Char → Bool) (xs ys : List Char)
    (h : xs.all p = false) :
    (xs ++ ys).takeWhile p = xs.takeWhile p := by
  induction xs with
  | nil => simp at h
  | cons c rest ih =>
    rw [List.all_cons] at h
    by_cases hc : p c = true
    · rw [hc, Bool.true_and] at h
      rw [List.cons_append, List.takeWhile_cons, if_pos hc, List.takeWhile_cons,
        if_pos hc, ih h]
    · rw [List.cons_append, List.takeWhile_cons, if_neg hc, List.takeWhile_cons,
        if_neg hc]

/-- The dedented license head absorbs the glued first lines: closed prefix
computation around an arbitrary remainder. -/
theorem license_head_absorb (Z : List Char) :
    "MIT License".toList ++ ('\n' :: ('\n' :: ("Copyright (c) ".toList ++ Z))) =
      licensePre.data ++ Z := by
  rw [show licensePre.data =
    "MIT License".toList ++ ('\n' :: ('\n' :: "Copyright (c) ".toList)) from by decide]
  simp [List.append_assoc, List.cons_append]

/-- dedentLines on the license line shape: the margin is the 4-space indent
whatever the (newline-free) year line ends with, so only that indent is
stripped from every line. -/
theorem dedentLines_license_shape (w : List Char)
    (hwall : w.all isIndentChar = false)
    (hwne : w.isEmpty = false)
    (hwlead : leadingWS w = "    ".toList)
    (hwpre : "    ".toList.isPrefixOf w = true) :
    dedentLines ("    MIT License".toList :: [] :: w :: licTailLines) =
      "MIT License".toList :: [] :: w.drop "    ".toList.length :: licTailStripped := by
  have hnormw : normLine w = w := by
    unfold normLine
    rw [hwall, Bool.and_false]
    simp
  have hcontw : isContentLine w = true := by
    unfold isContentLine
    rw [hwne]
    rfl
  unfold dedentLines
  simp only [List.map_cons]
  rw [show normLine ("    MIT License".toList) = "    MIT License".toList from by decide]
  rw [show normLine ([] : List Char) = [] from by decide]
  rw [hnormw]
  rw [show licTailLines.map normLine = licTailNormed from by decide]
  have hfil : (("    MIT License".toList) :: ([] : List Char) :: w :: licTailNormed).filter
      isContentLine = ("    MIT License".toList) :: w :: licContentTail := by
    rw [List.filter_cons, if_pos (show isContentLine ("    MIT License".toList) = true
      from by decide)]
    rw [List.filter_cons, if_neg (show ¬ isContentLine ([] : List Char) = true
      from by decide)]
    rw [List.filter_cons, if_pos hcontw]
    rw [show licTailNormed.filter isContentLine = licContentTail from by decide]
  rw [hfil]
  have hmargin : marginOf (("    MIT License".toList) :: w :: licContentTail) =
      "    ".toList := by
    unfold marginOf
    simp only [List.foldl_cons]
    rw [hwlead]
    rw [show lcp (leadingWS ("    MIT License".toList)) "    ".toList = "    ".toList
      from by decide]
    decide
  rw [hmargin]
  rw [show stripLine ("    ".toList) ("    MIT License".toList) = "MIT License".toList
    from by decide]
  rw [show stripLine ("    ".toList) ([] : List Char) = [] from by decide]
  rw [show licTailNormed.map (stripLine ("    ".toList)) = licTailStripped from by decide]
  have hstripw : stripLine ("    ".toList) w = w.drop "    ".toList.length := by
    unfold stripLine
    rw [hwpre]
    simp
  rw [hstripw]

/-- textwrap.dedent applied to the license template around an arbitrary
newline-free year slice: dedent factors as a fixed prefix, the slice, and a
fixed suffix. -/
theorem dedent_license_splice (s : List Char) (hs : '\n' ∉ s) :
    dedent (licenseRaw1 ++ String.mk s ++ licenseRaw2) =
      licensePre ++ (String.mk s ++ licenseSuf) := by
  have hdata : (licenseRaw1 ++ String.mk s ++ licenseRaw2).toList =
      licenseRaw1.toList ++ (s ++ licenseRaw2.toList) := by
    show (licenseRaw1 ++ String.mk s ++ licenseRaw2).data = _
    simp [String.data_append, String.toList, List.append_assoc]
  have hsplit : splitLines ((licenseRaw1 ++ String.mk s ++ licenseRaw2).toList) =
      "    MIT License".toList :: [] ::
        ("    Copyright (c) ".toList ++ s) :: licTailLines := by
    rw [hdata, splitLines_append, splitLines_append,
      show splitLines licenseRaw1.toList =
        ["    MIT License".toList, [], "    Copyright (c) ".toList] from by decide,
      splitLines_no_newline s hs,
      show splitLines licenseRaw2.toList = [] :: licTailLines from by decide]
    simp [glueLines]
  have hwall : ("    Copyright (c) ".toList ++ s).all isIndentChar = false := by
    rw [List.all_append,
      show "    Copyright (c) ".toList.all isIndentChar = false from by decide,
      Bool.false_and]
  have hwne : ("    Copyright (c) ".toList ++ s).isEmpty = false := by
    rw [show "    Copyright (c) ".toList = ' ' :: "   Copyright (c) ".toList
      from by decide, List.cons_append]
    rfl
  have hwlead : leadingWS ("    Copyright (c) ".toList ++ s) = "    ".toList := by
    unfold leadingWS
    rw [takeWhile_append_of_all_false _ _ _ (by decide)]
    decide
  have hwpre : "    ".toList.isPrefixOf ("    Copyright (c) ".toList ++ s) = true := by
    rw [show "    Copyright (c) ".toList = "    ".toList ++ "Copyright (c) ".toList
      from by decide, List.append_assoc]
    exact List.isPrefixOf_iff_prefix.2 (List.prefix_append _ _)
  have hwdrop : ("    Copyright (c) ".toList ++ s).drop "    ".toList.length =
      "Copyright (c) ".toList ++ s := by
    rw [show "    Copyright (c) ".toList = "    ".toList ++ "Copyright (c) ".toList
      from by decide, List.append_assoc, List.drop_left]
  unfold dedent
  rw [hsplit, dedentLines_license_shape _ hwall hwne hwlead hwpre, hwdrop]
  refine String.ext ?_
  show joinLines ("MIT License".toList :: [] ::
      ("Copyright (c) ".toList ++ s) :: licTailStripped) =
    (licensePre ++ (String.mk s ++ licenseSuf)).data
  have hj : joinLines ("MIT License".toList :: [] ::
      ("Copyright (c) ".toList ++ s) :: licTailStripped) =
      "MIT License".toList ++ ('\n' :: (([] : List Char) ++
        ('\n' :: (("Copyright (c) ".toList ++ s) ++ joinLinesAux licTailStripped)))) := rfl
  rw [hj, show joinLinesAux licTailStripped = licenseSuf.data from by decide,
    List.nil_append, List.append_assoc]
  rw [show (licensePre ++ (String.mk s ++ licenseSuf)).data =
    licensePre.data ++ (s ++ licenseSuf.data) from by simp [String.data_append]]
  exact license_head_absorb (s ++ licenseSuf.data)

/-- C8: the fallback generator is deterministic — it is a pure function of
brief, checks, attachments and the clock readings, and the clock enters the
output only through the timestamp slice of the template and the year slice
of the license: the template factors around `now`, the README is identical
across runs regardless of the clock, and the license factors around the
stamped year. -/
theorem C8_deterministic :
    ∀ (brief : String) (checks : List String) (attachments : List Attachment)
      (now now2 : String) (year year2 : Nat),
      _smart_template brief checks attachments now =
        smartPre brief ++ (now ++ smartSuf brief) ∧
      dictGet (generate_code none brief checks attachments now year) "README.md" =
        dictGet (generate_code none brief checks attachments now2 year2) "README.md" ∧
      _license_mit year = licensePre ++ (Nat.repr year ++ licenseSuf) := by
  intro brief checks attachments now now2 year year2
  have hread : ∀ (n0 : String) (y0 : Nat),
      dictGet (generate_code none brief checks attachments n0 y0) "README.md" =
        some (_readme brief checks) := by
    intro n0 y0
    simp only [generate_code, dictGet]
    rw [List.find?_cons_of_neg _ (by simp [beq_iff_eq]),
      List.find?_cons_of_pos _ (by simp)]
    rfl
  refine ⟨?_, ?_, ?_⟩
  · simp [_smart_template, templateWith, smartPre, smartSuf, String.append_assoc]
  · rw [hread now year, hread now2 year2]
  · have hfac := dedent_license_splice ((Nat.repr year).toList) (repr_no_newline year)
    rw [show String.mk ((Nat.repr year).toList) = Nat.repr year from rfl] at hfac
    exact hfac

end TdsDeploy
